import Mathlib

/-!
Verification development for the Out-of-Office web application.

The definitions below are a shallow embedding of the program's three pieces
of behaviour-bearing code:

* `src/hooks/useDebounce.ts` — the debounce hook, modelled as a timed
  schedule of `setTimeout`/`clearTimeout` firings over a list of
  `(time, value)` change events;
* the `UserSearch` component (its `searchUsers` effect, `handleUserClick`
  and `handleClear` handlers), modelled as an executable step function over
  a record of the component's `useState` cells plus the multiset of
  in-flight lookups;
* the `OofForm` component (`validateForm` and `handleSubmit`), modelled as
  a pure function from an environment of remote-call outcomes to the list
  of remote calls attempted and the final UI state.
-/

/-! ## Debounce hook (`src/hooks/useDebounce.ts`)

`useDebounce` keeps `debouncedValue` in a `useState` cell initialised to the
incoming `value`, and on every change of `value` (or `delay`) schedules
`setDebouncedValue(value)` after `delay` ms, clearing the previous timer in
the effect cleanup.  We model a run of the hook by the list of change events
`(t0, v0) :: changes` (the mount counts as the first event, since the effect
also runs on mount), with times strictly increasing.  A timer scheduled by
event `(t, v)` fires at `t + d` unless a later event occurs strictly before
that instant (the cleanup `clearTimeout` cancels it). -/

/-- The last change event of a run: `lastChange e0 cs` is the final element
of `e0 :: cs`. -/
def lastChange {V : Type} : Nat × V → List (Nat × V) → Nat × V
  | e, [] => e
  | _, e' :: es => lastChange e' es

/-- The timer firings produced by `useDebounce` over the change events `es`
with delay `d`: the timer of a non-final event fires only if its fire time
`t + d` precedes the next change (otherwise the effect cleanup cancels it);
the final event's timer always fires. -/
def debounceFires {V : Type} (d : Nat) : List (Nat × V) → List (Nat × V)
  | [] => []
  | [(t, v)] => [(t + d, v)]
  | (t, v) :: e2 :: es =>
    if t + d < e2.1 then (t + d, v) :: debounceFires d (e2 :: es)
    else debounceFires d (e2 :: es)

/-- The timer firings when the component is unmounted at time `tu`: the
cleanup returned by the effect clears the pending timer, so a timer fires
only if its fire time precedes both the next change and the unmount. -/
def debounceFiresUntil {V : Type} (d tu : Nat) : List (Nat × V) → List (Nat × V)
  | [] => []
  | [(t, v)] => if t + d < tu then [(t + d, v)] else []
  | (t, v) :: e2 :: es =>
    if t + d < e2.1 then (t + d, v) :: debounceFiresUntil d tu (e2 :: es)
    else debounceFiresUntil d tu (e2 :: es)

/-- The hook's output at time `t`: the value of the last firing at or before
`t`, and the initial value `v0` (the `useState` initialiser) before any
firing. -/
def debouncedOutputAt {V : Type} (v0 : V) (fs : List (Nat × V)) (t : Nat) : V :=
  fs.foldl (fun acc p => if p.1 ≤ t then p.2 else acc) v0

/-! ## Typeahead search widget (`UserSearch` component in the repository)

The component's `useState` cells are `searchTerm`, `results`, `isSearching`,
`error`, `showDropdown`, plus the `selectedUser` lifted to the parent via
`onUserSelect`.  `debouncedSearchTerm = useDebounce(searchTerm, 400)`.

The `searchUsers` effect re-runs whenever one of its dependencies
`[debouncedSearchTerm, instance, accounts, selectedUser]` changes.  It
early-returns when a user is selected; clears `results`/`showDropdown` and
returns when the debounced text is shorter than 2 characters; otherwise it
sets `isSearching := true`, `error := ""` and dispatches a lookup.  The
effect returns no cleanup and checks no tag at resolution time, so a
dispatched lookup always applies its result when it settles.  We model the
in-flight lookups as the list `pending` of the query texts they were
dispatched for, in dispatch order. -/

structure GraphUser where
  id : String
  displayName : String
  mail : String
  userPrincipalName : String
  jobTitle : Option String := none
  department : Option String := none
deriving DecidableEq

structure SearchState where
  searchTerm : String
  debouncedSearchTerm : String
  results : List GraphUser
  isSearching : Bool
  error : String
  showDropdown : Bool
  selectedUser : Option GraphUser
  pending : List String
deriving DecidableEq

/-- The initial widget state: all `useState` cells at their initialisers. -/
def initialSearchState : SearchState :=
  { searchTerm := "", debouncedSearchTerm := "", results := [], isSearching := false,
    error := "", showDropdown := false, selectedUser := none, pending := [] }

/-- The body of the `searchUsers` effect, run with the current state: early
return when a user is selected; below the 2-character minimum clear the
results and close the dropdown; otherwise mark searching, clear the error
and dispatch a lookup tagged (in the model only) with the debounced text it
was issued for. -/
def searchUsersEffect (st : SearchState) : SearchState :=
  if st.selectedUser.isSome then st
  else if st.debouncedSearchTerm.length < 2 then
    { st with results := [], showDropdown := false }
  else
    { st with isSearching := true, error := "",
              pending := st.pending ++ [st.debouncedSearchTerm] }

/-- `handleUserClick`: set the input text to the user's display name, clear
the results, close the dropdown, and lift the selection to the parent. -/
def handleUserClick (st : SearchState) (u : GraphUser) : SearchState :=
  { st with searchTerm := u.displayName, results := [], showDropdown := false,
            selectedUser := some u }

/-- `handleClear`: empty the input text, clear the results, close the
dropdown, and clear the selection. -/
def handleClear (st : SearchState) : SearchState :=
  { st with searchTerm := "", results := [], showDropdown := false,
            selectedUser := none }

/-- The generic message set by the effect's catch block. -/
def searchFailureMessage : String := "Failed to search users. Please try again."

/-- Events driving the widget:
* `input s` — a keystroke (`setSearchTerm`);
* `settle s` — the debounced value becomes `s` (a `useDebounce` timer fired),
  re-running the effect when the value actually changed;
* `resolve i outcome` — the `i`-th in-flight lookup settles: `some rs`
  applies the success path (`setResults(data.value || [])`,
  `setShowDropdown(true)`), `none` the catch block (generic error message,
  empty results); the `finally` block resets `isSearching` either way;
* `click u` — the user clicks candidate `u` in the rendered dropdown
  (only possible while the dropdown is open and `u` is among the results);
  the selection change re-runs the effect, which early-returns;
* `clear` — the clear button; the selection change (when one was held)
  re-runs the effect with the still-unchanged debounced text. -/
inductive SearchEvent where
  | input (s : String)
  | settle (s : String)
  | resolve (i : Nat) (outcome : Option (List GraphUser))
  | click (u : GraphUser)
  | clear
deriving DecidableEq

def searchStep (st : SearchState) : SearchEvent → SearchState
  | .input s => { st with searchTerm := s }
  | .settle s =>
    if s = st.debouncedSearchTerm then st
    else searchUsersEffect { st with debouncedSearchTerm := s }
  | .resolve i outcome =>
    if i < st.pending.length then
      let st' := { st with pending := st.pending.eraseIdx i }
      match outcome with
      | some rs =>
        { st' with results := rs, showDropdown := true, isSearching := false }
      | none =>
        { st' with error := searchFailureMessage, results := [], isSearching := false }
    else st
  | .click u =>
    if st.showDropdown = true ∧ u ∈ st.results then
      let st' := handleUserClick st u
      if st.selectedUser ≠ st'.selectedUser then searchUsersEffect st' else st'
    else st
  | .clear =>
    let st' := handleClear st
    if st.selectedUser.isSome then searchUsersEffect st' else st'

/-- Run the widget from a state through a list of events. -/
def runSearchTrace (st : SearchState) (es : List SearchEvent) : SearchState :=
  es.foldl searchStep st

/-- Concrete directory record used in the counterexample traces. -/
def uA : GraphUser :=
  { id := "1", displayName := "Jo A", mail := "jo@x.com", userPrincipalName := "jo@x.com" }

/-- Second concrete directory record used in the counterexample traces. -/
def uB : GraphUser :=
  { id := "2", displayName := "Ann B", mail := "ann@x.com", userPrincipalName := "ann@x.com" }

/-! ## Out-of-office form (`OofForm` component in the repository)

`handleSubmit` validates the form locally (`validateForm`), then runs a
sequence of remote calls inside a single try block: silent token
acquisition, the mailbox-settings patch, then — each guarded by its
checkbox — the calendar-block event, the decline rule, the calendar view
fetch plus per-event declines, the forwarding-rule creation, and finally
the webhook POST.  Any throw jumps to the catch block, which logs the cause
and builds the user-facing message from the thrown `Error`'s own message.

Date parsing (`new Date(...)`) and ISO rendering (`toISOString`) are
abstracted by a `DateOps` parameter; every remote outcome is supplied by a
`GraphEnv` environment.  A thrown JavaScript value is modelled as
`Option String`: `some m` is an `Error` with message `m`, `none` a
non-`Error` throw. -/

structure OofFormState where
  startTime : String
  endTime : String
  internalMessage : String
  externalMessage : String
  enableForwarding : Bool
  selectedUser : Option GraphUser
  blockCalendar : Bool
  declineNewInvites : Bool
  declineMeetings : Bool
deriving DecidableEq

structure DateOps where
  val : String → Int
  iso : String → String

structure AccountInfo where
  username : String
  name : String
deriving DecidableEq

/-- Drop leading whitespace characters from a character list. -/
def dropLeadingWs : List Char → List Char
  | [] => []
  | c :: cs => if c.isWhitespace then dropLeadingWs cs else c :: cs

/-- JavaScript's `String.prototype.trim()`: strip whitespace from both ends
(modelled directly over the character list so that it is kernel-computable). -/
def jsTrim (s : String) : String :=
  ⟨(dropLeadingWs (dropLeadingWs s.data).reverse).reverse⟩

/-- `validateForm`, returning the error message it sets when a check fails
(`none` means the form is valid).  The checks, in source order: both times
present, start strictly before end, non-blank internal and external
messages, and a selected user whenever forwarding is enabled. -/
def validateForm (val : String → Int) (f : OofFormState) : Option String :=
  if f.startTime = "" ∨ f.endTime = "" then
    some "Please select both start and end times."
  else if val f.endTime ≤ val f.startTime then
    some "End time must be after start time."
  else if jsTrim f.internalMessage = "" then
    some "Please provide an internal message."
  else if jsTrim f.externalMessage = "" then
    some "Please provide an external message."
  else if f.enableForwarding = true ∧ f.selectedUser = none then
    some "Please select a user to forward emails to."
  else
    none

/-- A calendar event returned by the calendar-view fetch. -/
structure CalEvent where
  id : String
  evType : String
deriving DecidableEq

/-- The remote calls `handleSubmit` can attempt, in pipeline order. -/
inductive RemoteCall where
  | acquireToken
  | patchMailboxSettings
  | postCalendarBlock
  | postDeclineRule
  | getCalendarView
  | postDeclineEvent (id : String)
  | postForwardingRule
  | postWebhook
deriving DecidableEq

/-- A thrown JavaScript value: `some m` is an `Error` with message `m`,
`none` a non-`Error` throw. -/
abbrev JsThrown := Option String

/-- The response of the webhook `fetch`: its `ok` flag and `status` code. -/
structure WebhookResponse where
  ok : Bool
  status : Nat
deriving DecidableEq

/-- Environment supplying the outcome of every remote call. -/
structure GraphEnv where
  tokenResult : Except JsThrown Unit
  mailboxResult : Except JsThrown Unit
  calendarBlockResult : Except JsThrown Unit
  declineRuleResult : Except JsThrown Unit
  calendarViewResult : Except JsThrown (List CalEvent)
  declineEventResult : String → Except JsThrown Unit
  forwardingRuleResult : Except JsThrown String
  webhookResult : Except JsThrown WebhookResponse

/-- The `automaticRepliesSetting` payload patched to the mailbox settings. -/
structure AutomaticRepliesSetting where
  status : String
  externalAudience : String
  scheduledStartDateTime : String
  scheduledEndDateTime : String
  internalReplyMessage : String
  externalReplyMessage : String
deriving DecidableEq

structure EmailAddress where
  name : String
  address : String
deriving DecidableEq

/-- The message-rule payload posted to create the forwarding rule. -/
structure ForwardingRulePayload where
  displayName : String
  sequence : Nat
  isEnabled : Bool
  sentToMe : Bool
  forwardTo : List EmailAddress
  stopProcessingRules : Bool
deriving DecidableEq

/-- The JSON payload POSTed to the Power Automate webhook. -/
structure PowerAutomateData where
  userId : String
  userDisplayName : String
  startDateTime : String
  endDateTime : String
  ruleId : Option String
  forwardToEmail : Option String
  forwardToName : Option String
deriving DecidableEq

inductive SubmitStatus where
  | idle
  | success
  | error
deriving DecidableEq

/-- The observable outcome of `handleSubmit`: the remote calls attempted in
order, the final `submitStatus` and `errorMessage` cells, the cause passed
to `console.error` by the catch block (if it ran), and the payloads
actually sent on the wire. -/
structure SubmitResult where
  calls : List RemoteCall
  submitStatus : SubmitStatus
  errorMessage : String
  loggedError : Option JsThrown
  patchedSettings : Option AutomaticRepliesSetting
  postedForwardingRule : Option ForwardingRulePayload
  postedWebhookPayload : Option PowerAutomateData
deriving DecidableEq

/-- The user-facing message built by the catch block: the thrown `Error`'s
own message is interpolated after the prefix; only a non-`Error` throw gets
the generic fallback. -/
def submitErrorMessage : JsThrown → String
  | some m => "Failed to set automatic replies: " ++ m
  | none => "Failed to set automatic replies. Please try again."

/-- The result produced when the catch block runs. -/
def submitFailure (calls : List RemoteCall) (patched : Option AutomaticRepliesSetting)
    (rule : Option ForwardingRulePayload) (payload : Option PowerAutomateData)
    (e : JsThrown) : SubmitResult :=
  { calls := calls
    submitStatus := SubmitStatus.error
    errorMessage := submitErrorMessage e
    loggedError := some e
    patchedSettings := patched
    postedForwardingRule := rule
    postedWebhookPayload := payload }

/-- The per-event decline loop: for each event of type `singleInstance` or
`occurrence` a decline is posted; the first failing decline throws, ending
the loop with the calls made so far. -/
def declineEvents (env : GraphEnv) : List CalEvent → List RemoteCall × Option JsThrown
  | [] => ([], none)
  | e :: rest =>
    if e.evType = "singleInstance" ∨ e.evType = "occurrence" then
      match env.declineEventResult e.id with
      | Except.ok _ =>
        let r := declineEvents env rest
        (RemoteCall.postDeclineEvent e.id :: r.1, r.2)
      | Except.error err => ([RemoteCall.postDeclineEvent e.id], some err)
    else declineEvents env rest

/-- The tail of the pipeline shared by both forwarding branches: build the
Power Automate payload (`enableForwarding && selectedUser ? ... : null` for
the forwarding fields), POST it to the webhook, and throw when the response
is not ok (interpolating the status code), mirroring the end of
`handleSubmit`. -/
def finishWebhook (env : GraphEnv) (acct : AccountInfo) (f : OofFormState)
    (startDateTime endDateTime : String) (calls : List RemoteCall)
    (patched : AutomaticRepliesSetting) (rule : Option ForwardingRulePayload)
    (ruleId : Option String) : SubmitResult :=
  let payload : PowerAutomateData :=
    { userId := acct.username
      userDisplayName := acct.name
      startDateTime := startDateTime
      endDateTime := endDateTime
      ruleId := ruleId
      forwardToEmail :=
        match f.selectedUser with
        | some u =>
          if f.enableForwarding then
            some (if u.mail = "" then u.userPrincipalName else u.mail)
          else none
        | none => none
      forwardToName :=
        match f.selectedUser with
        | some u => if f.enableForwarding then some u.displayName else none
        | none => none }
  let calls := calls ++ [RemoteCall.postWebhook]
  match env.webhookResult with
  | Except.error e => submitFailure calls (some patched) rule (some payload) e
  | Except.ok resp =>
    if resp.ok then
      { calls := calls
        submitStatus := SubmitStatus.success
        errorMessage := ""
        loggedError := none
        patchedSettings := some patched
        postedForwardingRule := rule
        postedWebhookPayload := some payload }
    else
      submitFailure calls (some patched) rule (some payload)
        (some ("Power Automate webhook failed: " ++ toString resp.status))

/-- `handleSubmit`: local validation first (on failure, error status with
the validation message and no remote call at all); then the try block's
pipeline, each step aborting the rest via the catch block on failure. -/
def handleSubmit (ops : DateOps) (env : GraphEnv) (acct : AccountInfo)
    (f : OofFormState) : SubmitResult :=
  match validateForm ops.val f with
  | some msg =>
    { calls := []
      submitStatus := SubmitStatus.error
      errorMessage := msg
      loggedError := none
      patchedSettings := none
      postedForwardingRule := none
      postedWebhookPayload := none }
  | none =>
    let c1 := [RemoteCall.acquireToken]
    match env.tokenResult with
    | Except.error e => submitFailure c1 none none none e
    | Except.ok _ =>
      let startDateTime := ops.iso f.startTime
      let endDateTime := ops.iso f.endTime
      let patched : AutomaticRepliesSetting :=
        { status := "scheduled"
          externalAudience := "all"
          scheduledStartDateTime := startDateTime
          scheduledEndDateTime := endDateTime
          internalReplyMessage := f.internalMessage
          externalReplyMessage := f.externalMessage }
      let c2 := c1 ++ [RemoteCall.patchMailboxSettings]
      match env.mailboxResult with
      | Except.error e => submitFailure c2 (some patched) none none e
      | Except.ok _ =>
        let c3 := if f.blockCalendar then c2 ++ [RemoteCall.postCalendarBlock] else c2
        match (if f.blockCalendar then env.calendarBlockResult else Except.ok ()) with
        | Except.error e => submitFailure c3 (some patched) none none e
        | Except.ok _ =>
          let c4 := if f.declineNewInvites then c3 ++ [RemoteCall.postDeclineRule] else c3
          match (if f.declineNewInvites then env.declineRuleResult else Except.ok ()) with
          | Except.error e => submitFailure c4 (some patched) none none e
          | Except.ok _ =>
            match (if f.declineMeetings then
                    match env.calendarViewResult with
                    | Except.error e => (c4 ++ [RemoteCall.getCalendarView], some e)
                    | Except.ok events =>
                      let r := declineEvents env events
                      (c4 ++ [RemoteCall.getCalendarView] ++ r.1, r.2)
                  else (c4, none)) with
            | (c5, some e) => submitFailure c5 (some patched) none none e
            | (c5, none) =>
              match (if f.enableForwarding then f.selectedUser else none) with
              | some u =>
                let rule : ForwardingRulePayload :=
                  { displayName := "OOO Forwarding Rule"
                    sequence := 1
                    isEnabled := false
                    sentToMe := true
                    forwardTo := [{ name := u.displayName
                                    address := if u.mail = "" then u.userPrincipalName
                                               else u.mail }]
                    stopProcessingRules := true }
                let c6 := c5 ++ [RemoteCall.postForwardingRule]
                match env.forwardingRuleResult with
                | Except.error e => submitFailure c6 (some patched) (some rule) none e
                | Except.ok rid =>
                  finishWebhook env acct f startDateTime endDateTime c6 patched
                    (some rule) (some rid)
              | none =>
                finishWebhook env acct f startDateTime endDateTime c5 patched none none

/-- The calls attempted by the two unconditional leading steps of the
pipeline (token acquisition and the mailbox-settings patch); the following
`callsAfter...` definitions account, step by step, for the calls the
pipeline has attempted once each optional step has run, for stating the
abort behaviour of `handleSubmit`. -/
def baseCalls : List RemoteCall :=
  [RemoteCall.acquireToken, RemoteCall.patchMailboxSettings]

/-- Calls attempted once the optional calendar-block step has run (its POST
appears exactly when the checkbox is set). -/
def callsAfterBlock (f : OofFormState) : List RemoteCall :=
  if f.blockCalendar = true then baseCalls ++ [RemoteCall.postCalendarBlock] else baseCalls

/-- Calls attempted once the optional decline-rule step has run. -/
def callsAfterDeclineRule (f : OofFormState) : List RemoteCall :=
  if f.declineNewInvites = true then callsAfterBlock f ++ [RemoteCall.postDeclineRule]
  else callsAfterBlock f

/-- Calls attempted once the optional meeting-declines step has run (the
calendar-view fetch plus the per-event declines actually issued). -/
def callsAfterMeetings (env : GraphEnv) (f : OofFormState) : List RemoteCall :=
  if f.declineMeetings = true then
    match env.calendarViewResult with
    | Except.error _ => callsAfterDeclineRule f ++ [RemoteCall.getCalendarView]
    | Except.ok events =>
      callsAfterDeclineRule f ++ [RemoteCall.getCalendarView] ++ (declineEvents env events).1
  else callsAfterDeclineRule f

/-- Calls attempted once the optional forwarding-rule step has run. -/
def callsBeforeWebhook (env : GraphEnv) (f : OofFormState) : List RemoteCall :=
  callsAfterMeetings env f ++
    (match (if f.enableForwarding = true then f.selectedUser else none) with
     | some _ => [RemoteCall.postForwardingRule]
     | none => [])

/-- Concrete date operations for the evaluation theorems: a string's length
as its date value, a "Z" suffix as its ISO rendering. -/
def demoOps : DateOps := { val := fun s => (s.length : Int), iso := fun s => s ++ "Z" }

/-- Concrete signed-in account for the evaluation theorems. -/
def demoAcct : AccountInfo := { username := "me@x.com", name := "Me" }

/-- Environment in which every remote call succeeds. -/
def demoEnvOk : GraphEnv :=
  { tokenResult := Except.ok ()
    mailboxResult := Except.ok ()
    calendarBlockResult := Except.ok ()
    declineRuleResult := Except.ok ()
    calendarViewResult := Except.ok []
    declineEventResult := fun _ => Except.ok ()
    forwardingRuleResult := Except.ok "RID1"
    webhookResult := Except.ok { ok := true, status := 200 } }

/-- Environment in which the mailbox-settings patch throws
`Error("boom")`. -/
def demoEnvMailboxBoom : GraphEnv :=
  { demoEnvOk with mailboxResult := Except.error (some "boom") }

/-- Environment in which every step succeeds but the webhook answers with a
non-ok 500 response. -/
def demoEnvWebhook500 : GraphEnv :=
  { demoEnvOk with webhookResult := Except.ok { ok := false, status := 500 } }

/-- A valid form with no options enabled. -/
def demoFormPlain : OofFormState :=
  { startTime := "s", endTime := "endX", internalMessage := "in",
    externalMessage := "out", enableForwarding := false, selectedUser := none,
    blockCalendar := false, declineNewInvites := false, declineMeetings := false }

/-- A valid form with forwarding enabled and `uA` selected. -/
def demoFormFwd : OofFormState :=
  { demoFormPlain with enableForwarding := true, selectedUser := some uA }

theorem lastChange_cons {V : Type} (e e' : Nat × V) (es : List (Nat × V)) :
    lastChange e (e' :: es) = lastChange e' es := rfl

theorem debounceFires_of_chain {V : Type} (d : Nat) (e0 : Nat × V)
    (cs : List (Nat × V))
    (h : List.Chain' (fun p q : Nat × V => p.1 < q.1 ∧ q.1 < p.1 + d) (e0 :: cs)) :
    debounceFires d (e0 :: cs) = [((lastChange e0 cs).1 + d, (lastChange e0 cs).2)] := by
  induction cs generalizing e0 with
  | nil => rfl
  | cons e1 cs ih =>
    rcases e0 with ⟨t0, v0⟩
    have hrel : t0 < e1.1 ∧ e1.1 < t0 + d := (List.chain'_cons.mp h).1
    have htail : List.Chain' (fun p q : Nat × V => p.1 < q.1 ∧ q.1 < p.1 + d) (e1 :: cs) :=
      (List.chain'_cons.mp h).2
    have hnot : ¬ (t0 + d < e1.1) := by omega
    rw [lastChange_cons]
    simp only [debounceFires, hnot, if_false]
    exact ih e1 htail

theorem lastChange_time_ge {V : Type} (d : Nat) (cs : List (Nat × V)) (e : Nat × V)
    (h : List.Chain' (fun p q : Nat × V => p.1 < q.1 ∧ q.1 < p.1 + d) (e :: cs)) :
    e.1 ≤ (lastChange e cs).1 := by
  induction cs generalizing e with
  | nil => exact Nat.le_refl _
  | cons e1 cs ih =>
    have h1 : e.1 < e1.1 := (List.chain'_cons.mp h).1.1
    have h2 := ih e1 (List.chain'_cons.mp h).2
    rw [lastChange_cons]
    omega

/-- C4: for every delay `d ≥ 0` and every run whose change events (the mount
with the initial value counted as the first event, since the hook's effect
also runs on mount) each occur strictly within `d` ms of the previous one,
`useDebounce` fires exactly one timer, carrying the final value of the
sequence, `d` ms after the last change; and the hook's output at mount time
equals the initial value immediately (the `useState` initialiser, no initial
delay). -/
theorem useDebounce_single_final_publish {V : Type} (d t0 : Nat) (v0 : V)
    (cs : List (Nat × V))
    (h : List.Chain' (fun p q : Nat × V => p.1 < q.1 ∧ q.1 < p.1 + d) ((t0, v0) :: cs)) :
    debounceFires d ((t0, v0) :: cs)
      = [((lastChange (t0, v0) cs).1 + d, (lastChange (t0, v0) cs).2)]
    ∧ debouncedOutputAt v0 (debounceFires d ((t0, v0) :: cs)) t0 = v0 := by
  have hf := debounceFires_of_chain d (t0, v0) cs h
  refine ⟨hf, ?_⟩
  rw [hf]
  cases cs with
  | nil =>
    simp [lastChange, debouncedOutputAt]
  | cons e1 cs' =>
    have h1 : t0 < e1.1 := (List.chain'_cons.mp h).1.1
    have h2 := lastChange_time_ge d cs' e1 (List.chain'_cons.mp h).2
    have hne : ¬ ((lastChange (t0, v0) (e1 :: cs')).1 + d ≤ t0) := by
      rw [lastChange_cons]
      omega
    simp [debouncedOutputAt, hne]

/-- Witness for C4 at a concrete run: delay 5, mount `(0, 0)`, changes
`(1, 1)` and `(2, 2)` (gaps of 1 ms < 5 ms): the only firing is `(7, 2)` and
the output at mount time is the initial value `0`. -/
theorem useDebounce_single_final_publish_witness :
    debounceFires 5 [((0 : Nat), (0 : Nat)), (1, 1), (2, 2)] = [(7, 2)]
    ∧ debouncedOutputAt 0 (debounceFires 5 [((0 : Nat), (0 : Nat)), (1, 1), (2, 2)]) 0 = 0 := by
  have h := useDebounce_single_final_publish (V := Nat) 5 0 0 [(1, 1), (2, 2)]
    (by simp [List.chain'_cons])
  simpa [lastChange] using h

theorem debounceFiresUntil_lt {V : Type} (d tu : Nat) (cs : List (Nat × V)) (e : Nat × V)
    (h : ∀ p ∈ e :: cs, p.1 < tu) :
    ∀ q ∈ debounceFiresUntil d tu (e :: cs), q.1 < tu := by
  induction cs generalizing e with
  | nil =>
    rcases e with ⟨t, v⟩
    intro q hq
    by_cases hc : t + d < tu
    · simp only [debounceFiresUntil, if_pos hc, List.mem_singleton] at hq
      rw [hq]
      exact hc
    · simp only [debounceFiresUntil, if_neg hc] at hq
      exact absurd hq (List.not_mem_nil q)
  | cons e1 cs ih =>
    rcases e with ⟨t, v⟩
    intro q hq
    have htail : ∀ p ∈ e1 :: cs, p.1 < tu := fun p hp => h p (List.mem_cons_of_mem _ hp)
    by_cases hc : t + d < e1.1
    · simp only [debounceFiresUntil, if_pos hc, List.mem_cons] at hq
      rcases hq with hq | hq
      · have he1 : e1.1 < tu := h e1 (List.mem_cons_of_mem _ (List.mem_cons_self e1 cs))
        rw [hq]
        simpa using Nat.lt_trans hc he1
      · exact ih e1 htail q hq
    · simp only [debounceFiresUntil, if_neg hc] at hq
      exact ih e1 htail q hq

theorem debouncedOutputAt_stable {V : Type} (tu t : Nat) (ht : tu ≤ t) :
    ∀ (fs : List (Nat × V)) (v0 : V), (∀ q ∈ fs, q.1 < tu) →
      debouncedOutputAt v0 fs t = debouncedOutputAt v0 fs tu := by
  intro fs
  induction fs with
  | nil => intro v0 _; rfl
  | cons p fs ih =>
    intro v0 hfs
    have hp : p.1 < tu := hfs p (List.mem_cons_self p fs)
    have h1 : p.1 ≤ t := Nat.le_trans (Nat.le_of_lt hp) ht
    have h2 : p.1 ≤ tu := Nat.le_of_lt hp
    have e1 : debouncedOutputAt v0 (p :: fs) t = debouncedOutputAt p.2 fs t := by
      simp [debouncedOutputAt, h1]
    have e2 : debouncedOutputAt v0 (p :: fs) tu = debouncedOutputAt p.2 fs tu := by
      simp [debouncedOutputAt, h2]
    rw [e1, e2]
    exact ih p.2 (fun q hq => hfs q (List.mem_cons_of_mem p hq))

/-- C5: if the component is unmounted at time `tu`, after all change events
but before the pending publish (the last change's timer) would fire, then
that publish never occurs: it is not among the firings, every firing
happens strictly before the unmount, and the hook's output never changes at
or after the unmount instant (the effect cleanup clears the pending timer,
so no state is mutated after teardown). -/
theorem useDebounce_unmount_cancels {V : Type} (d tu t0 : Nat) (v0 : V)
    (cs : List (Nat × V))
    (hev : ∀ p ∈ (t0, v0) :: cs, p.1 < tu)
    (hpend : tu ≤ (lastChange (t0, v0) cs).1 + d) :
    ((lastChange (t0, v0) cs).1 + d, (lastChange (t0, v0) cs).2) ∉
        debounceFiresUntil d tu ((t0, v0) :: cs)
    ∧ (∀ q ∈ debounceFiresUntil d tu ((t0, v0) :: cs), q.1 < tu)
    ∧ ∀ t, tu ≤ t →
        debouncedOutputAt v0 (debounceFiresUntil d tu ((t0, v0) :: cs)) t
          = debouncedOutputAt v0 (debounceFiresUntil d tu ((t0, v0) :: cs)) tu := by
  have hall := debounceFiresUntil_lt d tu cs (t0, v0) hev
  refine ⟨?_, hall, ?_⟩
  · intro hmem
    have := hall _ hmem
    simp only at this
    omega
  · intro t ht
    exact debouncedOutputAt_stable tu t ht _ v0 hall

/-- Witness for C5 at a concrete run: delay 5, mount `(0, 0)`, one change
`(1, 1)`, unmount at time 3 (before the pending fire time 6): no firing at
all occurs, in particular not the pending `(6, 1)`. -/
theorem useDebounce_unmount_cancels_witness :
    ((6 : Nat), (1 : Nat)) ∉ debounceFiresUntil 5 3 [((0 : Nat), (0 : Nat)), (1, 1)] := by
  have h := useDebounce_unmount_cancels (V := Nat) 5 3 0 0 [(1, 1)] (by decide) (by decide)
  simpa [lastChange] using h.1

/-- C1: the effect dispatches lookups without any tag check or cleanup, so a
lookup dispatched for the earlier settled text "ab" that resolves after the
lookup for the later settled text "abc" overwrites the candidate list with
the stale result.  Concretely: "ab" is dispatched, then "abc"; the "abc"
lookup resolves first with `[]`; when the "ab" lookup then resolves with
`[uA]`, the final candidate list is `[uA]`, not the `[]` returned for "abc"
— the claim's staleness rule does not hold in the code. -/
theorem searchUsers_stale_response_overwrites :
    (runSearchTrace initialSearchState
      [SearchEvent.settle "ab", SearchEvent.settle "abc",
       SearchEvent.resolve 1 (some []), SearchEvent.resolve 0 (some [uA])]).results
      = [uA]
    ∧ [uA] ≠ ([] : List GraphUser) := by decide

/-- C2 counterexample: selecting candidate `uA` (after a successful search
for "jo") and then clearing does not return the widget to its initial
state: the selection change re-runs the `searchUsers` effect while the
debounced text is still the selected user's display name, so the clearing
itself dispatches a lookup ("Jo A" is pending) and leaves the widget in the
searching status. -/
theorem select_then_clear_not_initial :
    runSearchTrace initialSearchState
      [SearchEvent.settle "jo", SearchEvent.resolve 0 (some [uA]),
       SearchEvent.click uA, SearchEvent.settle "Jo A", SearchEvent.clear]
      ≠ initialSearchState
    ∧ (runSearchTrace initialSearchState
        [SearchEvent.settle "jo", SearchEvent.resolve 0 (some [uA]),
         SearchEvent.click uA, SearchEvent.settle "Jo A", SearchEvent.clear]).isSearching
        = true
    ∧ (runSearchTrace initialSearchState
        [SearchEvent.settle "jo", SearchEvent.resolve 0 (some [uA]),
         SearchEvent.click uA, SearchEvent.settle "Jo A", SearchEvent.clear]).pending
        = ["Jo A"] := by decide

/-- C2 amended: clearing resets the query text, the selection, the candidate
list and the dropdown, but not the whole widget: the status and error cells
are not restored, and when a selection was held and the debounced text still
has length at least 2, the clearing itself dispatches a lookup for that
stale debounced text and enters the searching status. -/
theorem handleClear_partial_reset (st : SearchState) :
    (searchStep st SearchEvent.clear).searchTerm = ""
    ∧ (searchStep st SearchEvent.clear).selectedUser = none
    ∧ (searchStep st SearchEvent.clear).results = []
    ∧ (searchStep st SearchEvent.clear).showDropdown = false
    ∧ (st.selectedUser.isSome = true → 2 ≤ st.debouncedSearchTerm.length →
        (searchStep st SearchEvent.clear).pending = st.pending ++ [st.debouncedSearchTerm]
        ∧ (searchStep st SearchEvent.clear).isSearching = true) := by
  by_cases hs : st.selectedUser.isSome
  · by_cases hl : st.debouncedSearchTerm.length < 2
    · refine ⟨?_, ?_, ?_, ?_, ?_⟩ <;>
        simp [searchStep, handleClear, searchUsersEffect, hs, hl]
    · refine ⟨?_, ?_, ?_, ?_, ?_⟩ <;>
        simp [searchStep, handleClear, searchUsersEffect, hs, hl]
  · refine ⟨?_, ?_, ?_, ?_, ?_⟩ <;>
      simp [searchStep, handleClear, searchUsersEffect, hs]

/-- Witness for the amended C2 at a concrete state: a held selection with
debounced text "Jo A" (length 4); clearing dispatches a lookup for "Jo A"
and sets the searching status. -/
theorem handleClear_partial_reset_witness :
    (searchStep { initialSearchState with selectedUser := some uA,
                                          debouncedSearchTerm := "Jo A" }
        SearchEvent.clear).pending = ["Jo A"]
    ∧ (searchStep { initialSearchState with selectedUser := some uA,
                                            debouncedSearchTerm := "Jo A" }
        SearchEvent.clear).isSearching = true := by
  have h := handleClear_partial_reset
    { initialSearchState with selectedUser := some uA, debouncedSearchTerm := "Jo A" }
  have h2 := h.2.2.2.2 (by decide) (by decide)
  simpa [initialSearchState] using h2

/-- C6 counterexample: a lookup dispatched for "ab" is still in flight when
the debounced text settles to the 1-character "a" (which clears the
candidates and dispatches nothing); when the stale lookup then resolves, it
repopulates the candidate list even though the debounced text has length
less than 2 — so "candidates are empty regardless of prior state" fails. -/
theorem short_text_stale_candidates :
    (runSearchTrace initialSearchState
      [SearchEvent.settle "ab", SearchEvent.settle "a",
       SearchEvent.resolve 0 (some [uA])]).debouncedSearchTerm = "a"
    ∧ (runSearchTrace initialSearchState
        [SearchEvent.settle "ab", SearchEvent.settle "a",
         SearchEvent.resolve 0 (some [uA])]).debouncedSearchTerm.length < 2
    ∧ (runSearchTrace initialSearchState
        [SearchEvent.settle "ab", SearchEvent.settle "a",
         SearchEvent.resolve 0 (some [uA])]).results = [uA] := by decide

/-- C6 amended: a settle event whose text is shorter than 2 characters never
dispatches a lookup (the in-flight list is unchanged), and — when no
selection is held and the text actually changed, so the effect re-runs — it
clears the candidate list; the list can nevertheless be repopulated later by
a lookup that was already in flight. -/
theorem short_settle_never_dispatches (st : SearchState) (s : String)
    (hlen : s.length < 2) :
    (searchStep st (SearchEvent.settle s)).pending = st.pending
    ∧ (st.selectedUser = none → s ≠ st.debouncedSearchTerm →
        (searchStep st (SearchEvent.settle s)).results = []) := by
  by_cases heq : s = st.debouncedSearchTerm
  · constructor
    · simp [searchStep, heq]
    · intro _ hne
      exact absurd heq hne
  · by_cases hs : st.selectedUser.isSome
    · constructor
      · simp [searchStep, searchUsersEffect, heq, hs]
      · intro hnone _
        rw [hnone] at hs
        simp at hs
    · constructor
      · simp [searchStep, searchUsersEffect, heq, hs, hlen]
      · intro _ _
        simp [searchStep, searchUsersEffect, heq, hs, hlen]

/-- Witness for the amended C6 at a concrete state: settling the 1-character
text "a" while a lookup for "ab" is in flight leaves the in-flight list
unchanged and clears the candidates. -/
theorem short_settle_never_dispatches_witness :
    (searchStep { initialSearchState with debouncedSearchTerm := "ab",
                                          results := [uA], pending := ["ab"] }
        (SearchEvent.settle "a")).pending = ["ab"]
    ∧ (searchStep { initialSearchState with debouncedSearchTerm := "ab",
                                            results := [uA], pending := ["ab"] }
        (SearchEvent.settle "a")).results = [] := by
  have h := short_settle_never_dispatches
    { initialSearchState with debouncedSearchTerm := "ab", results := [uA], pending := ["ab"] }
    "a" (by decide)
  exact ⟨h.1, h.2 (by decide) (by decide)⟩

/-- C7 counterexample: search "ab" succeeds with `[uA]`; the debounced text
then settles to "abc", dispatching a second lookup; the user clicks `uA`
while that lookup is in flight.  Immediately after the click a selection is
held while a lookup is in flight, and when the lookup resolves with `[uB]`
the candidate list is repopulated while the selection is still held — the
claimed invariant `selected ≠ none → no lookup in flight ∧ candidates = []`
fails in a reachable state. -/
theorem selection_held_with_inflight_lookup :
    (runSearchTrace initialSearchState
      [SearchEvent.settle "ab", SearchEvent.resolve 0 (some [uA]),
       SearchEvent.settle "abc", SearchEvent.click uA]).selectedUser = some uA
    ∧ (runSearchTrace initialSearchState
        [SearchEvent.settle "ab", SearchEvent.resolve 0 (some [uA]),
         SearchEvent.settle "abc", SearchEvent.click uA]).pending = ["abc"]
    ∧ (runSearchTrace initialSearchState
        [SearchEvent.settle "ab", SearchEvent.resolve 0 (some [uA]),
         SearchEvent.settle "abc", SearchEvent.click uA,
         SearchEvent.resolve 0 (some [uB])]).selectedUser = some uA
    ∧ (runSearchTrace initialSearchState
        [SearchEvent.settle "ab", SearchEvent.resolve 0 (some [uA]),
         SearchEvent.settle "abc", SearchEvent.click uA,
         SearchEvent.resolve 0 (some [uB])]).results = [uB] := by decide

/-- C7 amended: committing a selection clears the candidate list and holds
the selection, and while a selection is held a settle event dispatches no
lookup and leaves the candidates unchanged (the effect early-returns); but
a lookup already in flight when the selection is committed is not
cancelled, and its later resolution still applies. -/
theorem selection_suppresses_dispatch (st : SearchState) (u : GraphUser) (s : String) :
    (st.showDropdown = true → u ∈ st.results →
      (searchStep st (SearchEvent.click u)).results = []
      ∧ (searchStep st (SearchEvent.click u)).selectedUser = some u
      ∧ (searchStep st (SearchEvent.click u)).pending = st.pending)
    ∧ (st.selectedUser.isSome = true →
      (searchStep st (SearchEvent.settle s)).pending = st.pending
      ∧ (searchStep st (SearchEvent.settle s)).results = st.results) := by
  constructor
  · intro hd hm
    by_cases hchg : st.selectedUser ≠ some u
    · simp [searchStep, handleUserClick, searchUsersEffect, hd, hm, hchg]
    · simp [searchStep, handleUserClick, searchUsersEffect, hd, hm, hchg]
  · intro hs
    by_cases heq : s = st.debouncedSearchTerm
    · simp [searchStep, heq]
    · simp [searchStep, searchUsersEffect, heq, hs]

/-- Witness for the amended C7 at a concrete state: clicking `uA` in an open
dropdown showing `[uA]` while a lookup for "abc" is in flight clears the
candidates, holds the selection, and leaves the in-flight lookup pending. -/
theorem selection_suppresses_dispatch_witness :
    (searchStep { initialSearchState with debouncedSearchTerm := "abc",
                                          results := [uA], showDropdown := true,
                                          isSearching := true, pending := ["abc"] }
        (SearchEvent.click uA)).results = []
    ∧ (searchStep { initialSearchState with debouncedSearchTerm := "abc",
                                            results := [uA], showDropdown := true,
                                            isSearching := true, pending := ["abc"] }
        (SearchEvent.click uA)).selectedUser = some uA
    ∧ (searchStep { initialSearchState with debouncedSearchTerm := "abc",
                                            results := [uA], showDropdown := true,
                                            isSearching := true, pending := ["abc"] }
        (SearchEvent.click uA)).pending = ["abc"] := by
  have h := selection_suppresses_dispatch
    { initialSearchState with debouncedSearchTerm := "abc", results := [uA],
                              showDropdown := true, isSearching := true, pending := ["abc"] }
    uA "x"
  exact h.1 (by decide) (by decide)

/-- C9: when the debounced text drops below 2 characters the effect clears
the candidates but leaves the error message untouched; the error cell is
reset to the empty string only by a step that also dispatches a lookup of
length at least 2; and there is a reachable state — a failed lookup for
"ab" followed by the text settling to "a" — showing the generic failure
message alongside an empty, idle search box. -/
theorem stale_error_on_short_text :
    (∀ (st : SearchState) (s : String), st.selectedUser = none → s.length < 2 →
      s ≠ st.debouncedSearchTerm →
      (searchStep st (SearchEvent.settle s)).error = st.error
      ∧ (searchStep st (SearchEvent.settle s)).results = [])
    ∧ (∀ (st : SearchState) (e : SearchEvent),
      (searchStep st e).error = "" → st.error ≠ "" →
      ∃ q, (searchStep st e).pending = st.pending ++ [q] ∧ 2 ≤ q.length)
    ∧ (runSearchTrace initialSearchState
        [SearchEvent.settle "ab", SearchEvent.resolve 0 none, SearchEvent.settle "a"]).error
        = searchFailureMessage
    ∧ (runSearchTrace initialSearchState
        [SearchEvent.settle "ab", SearchEvent.resolve 0 none, SearchEvent.settle "a"]).results
        = []
    ∧ (runSearchTrace initialSearchState
        [SearchEvent.settle "ab", SearchEvent.resolve 0 none, SearchEvent.settle "a"]).isSearching
        = false
    ∧ (runSearchTrace initialSearchState
        [SearchEvent.settle "ab", SearchEvent.resolve 0 none,
         SearchEvent.settle "a"]).debouncedSearchTerm.length < 2 := by
  refine ⟨?_, ?_, by decide, by decide, by decide, by decide⟩
  · intro st s hsel hlen hne
    have hs : st.selectedUser.isSome = false := by
      rw [hsel]; rfl
    constructor <;> simp [searchStep, searchUsersEffect, hne, hs, hlen]
  · intro st e h1 h2
    cases e with
    | input s =>
      simp [searchStep] at h1
      exact absurd h1 h2
    | settle s =>
      by_cases heq : s = st.debouncedSearchTerm
      · simp [searchStep, heq] at h1
        exact absurd h1 h2
      · by_cases hsel : st.selectedUser.isSome
        · simp [searchStep, searchUsersEffect, heq, hsel] at h1
          exact absurd h1 h2
        · by_cases hlen : s.length < 2
          · simp [searchStep, searchUsersEffect, heq, hsel, hlen] at h1
            exact absurd h1 h2
          · refine ⟨s, ?_, by omega⟩
            simp [searchStep, searchUsersEffect, heq, hsel, hlen]
    | resolve i outcome =>
      by_cases hi : i < st.pending.length
      · cases outcome with
        | some rs =>
          simp [searchStep, hi] at h1
          exact absurd h1 h2
        | none =>
          simp [searchStep, hi, searchFailureMessage] at h1
      · simp [searchStep, hi] at h1
        exact absurd h1 h2
    | click u =>
      by_cases hg : st.showDropdown = true ∧ u ∈ st.results
      · by_cases hchg : st.selectedUser ≠ some u
        · simp [searchStep, handleUserClick, searchUsersEffect, hg, hchg] at h1
          exact absurd h1 h2
        · simp [searchStep, handleUserClick, searchUsersEffect, hg, hchg] at h1
          exact absurd h1 h2
      · simp [searchStep, hg] at h1
        exact absurd h1 h2
    | clear =>
      by_cases hsel : st.selectedUser.isSome
      · by_cases hlen : st.debouncedSearchTerm.length < 2
        · simp [searchStep, handleClear, searchUsersEffect, hsel, hlen] at h1
          exact absurd h1 h2
        · refine ⟨st.debouncedSearchTerm, ?_, by omega⟩
          simp [searchStep, handleClear, searchUsersEffect, hsel, hlen]
      · simp [searchStep, handleClear, hsel] at h1
        exact absurd h1 h2

/-- Witness for C9 at concrete states: settling the short text "a" with a
failure message on display preserves the message; and a settle of "ab" that
clears a previous failure message does dispatch a lookup of length ≥ 2. -/
theorem stale_error_on_short_text_witness :
    (searchStep { initialSearchState with error := searchFailureMessage,
                                          debouncedSearchTerm := "xy" }
        (SearchEvent.settle "a")).error
      = ({ initialSearchState with error := searchFailureMessage,
                                   debouncedSearchTerm := "xy" } : SearchState).error
    ∧ ∃ q, (searchStep { initialSearchState with error := searchFailureMessage }
          (SearchEvent.settle "ab")).pending
        = ({ initialSearchState with error := searchFailureMessage } : SearchState).pending ++ [q]
      ∧ 2 ≤ q.length := by
  constructor
  · exact (stale_error_on_short_text.1
      { initialSearchState with error := searchFailureMessage, debouncedSearchTerm := "xy" }
      "a" (by decide) (by decide) (by decide)).1
  · exact stale_error_on_short_text.2.1
      { initialSearchState with error := searchFailureMessage }
      (SearchEvent.settle "ab") (by decide) (by decide)

theorem finishWebhook_cases (env : GraphEnv) (acct : AccountInfo) (f : OofFormState)
    (sdt edt : String) (calls : List RemoteCall) (patched : AutomaticRepliesSetting)
    (rule : Option ForwardingRulePayload) (ruleId : Option String) :
    ((finishWebhook env acct f sdt edt calls patched rule ruleId).submitStatus
        = SubmitStatus.success
      ∧ (finishWebhook env acct f sdt edt calls patched rule ruleId).loggedError = none)
    ∨ (∃ e, (finishWebhook env acct f sdt edt calls patched rule ruleId).submitStatus
        = SubmitStatus.error
      ∧ (finishWebhook env acct f sdt edt calls patched rule ruleId).loggedError = some e
      ∧ (finishWebhook env acct f sdt edt calls patched rule ruleId).errorMessage
        = submitErrorMessage e) := by
  simp only [finishWebhook]
  split
  · exact Or.inr ⟨_, rfl, rfl, rfl⟩
  · split
    · exact Or.inl ⟨rfl, rfl⟩
    · exact Or.inr ⟨_, rfl, rfl, rfl⟩

theorem submit_outcome_cases (ops : DateOps) (env : GraphEnv) (acct : AccountInfo)
    (f : OofFormState) (hv : validateForm ops.val f = none) :
    ((handleSubmit ops env acct f).submitStatus = SubmitStatus.success
      ∧ (handleSubmit ops env acct f).loggedError = none)
    ∨ (∃ e, (handleSubmit ops env acct f).submitStatus = SubmitStatus.error
      ∧ (handleSubmit ops env acct f).loggedError = some e
      ∧ (handleSubmit ops env acct f).errorMessage = submitErrorMessage e) := by
  simp only [handleSubmit, hv]
  split
  · exact Or.inr ⟨_, rfl, rfl, rfl⟩
  · split
    · exact Or.inr ⟨_, rfl, rfl, rfl⟩
    · split
      · exact Or.inr ⟨_, rfl, rfl, rfl⟩
      · split
        · exact Or.inr ⟨_, rfl, rfl, rfl⟩
        · split
          · exact Or.inr ⟨_, rfl, rfl, rfl⟩
          · split
            · split
              · exact Or.inr ⟨_, rfl, rfl, rfl⟩
              · exact finishWebhook_cases _ _ _ _ _ _ _ _ _
            · exact finishWebhook_cases _ _ _ _ _ _ _ _ _

theorem submitErrorMessage_ne_empty (e : JsThrown) : submitErrorMessage e ≠ "" := by
  cases e with
  | none => decide
  | some m =>
    intro hc
    have hl := congrArg String.length hc
    rw [submitErrorMessage, String.length_append] at hl
    exact absurd (Nat.eq_zero_of_add_eq_zero_right hl) (by decide)

/-- C3 counterexample: when the mailbox-settings patch throws
`Error("boom")`, the user-facing message is
"Failed to set automatic replies: boom" — the raw error message is
interpolated into the user-facing error state, so the surfaced message is
not the generic one and does expose the underlying error. -/
theorem submit_error_message_exposes_cause :
    (handleSubmit demoOps demoEnvMailboxBoom demoAcct demoFormPlain).errorMessage
      = "Failed to set automatic replies: boom"
    ∧ (handleSubmit demoOps demoEnvMailboxBoom demoAcct demoFormPlain).errorMessage
      ≠ "Failed to set automatic replies. Please try again."
    ∧ (handleSubmit demoOps demoEnvMailboxBoom demoAcct demoFormPlain).calls
      = [RemoteCall.acquireToken, RemoteCall.patchMailboxSettings]
    ∧ (handleSubmit demoOps demoEnvMailboxBoom demoAcct demoFormPlain).submitStatus
      = SubmitStatus.error := by
  refine ⟨rfl, by decide, rfl, rfl⟩

theorem declineEvents_calls_shape (env : GraphEnv) (l : List CalEvent) :
    ∀ c ∈ (declineEvents env l).1, ∃ i, c = RemoteCall.postDeclineEvent i := by
  induction l with
  | nil =>
    intro c hc
    simp [declineEvents] at hc
  | cons e rest ih =>
    intro c hc
    by_cases ht : e.evType = "singleInstance" ∨ e.evType = "occurrence"
    · simp only [declineEvents, if_pos ht] at hc
      cases hres : env.declineEventResult e.id with
      | ok u =>
        rw [hres] at hc
        simp at hc
        rcases hc with hc | hc
        · exact ⟨e.id, hc⟩
        · exact ih c hc
      | error err =>
        rw [hres] at hc
        simp at hc
        exact ⟨e.id, hc⟩
    · simp only [declineEvents, if_neg ht] at hc
      exact ih c hc

/-- C3 amended: every remote-call failure during the multi-step submission
aborts the remaining steps — for each of the eight failure points (token
acquisition, mailbox patch, calendar block, decline rule, calendar-view
fetch, a decline inside the per-event loop, forwarding-rule creation, and
the webhook POST, whether rejected or answered non-ok) the attempted-calls
list is exactly the steps up to and including the failing call, with
nothing after it (a failure inside the decline loop additionally executes
only decline calls) — and the error status carries the underlying cause
logged for diagnostics; but the user-facing message is not generic: it is
the prefix "Failed to set automatic replies: " followed by the thrown
`Error`'s own message (the generic fallback is used only for non-`Error`
throws). -/
theorem submit_remote_failure_aborts (ops : DateOps) (env : GraphEnv)
    (acct : AccountInfo) (f : OofFormState)
    (hv : validateForm ops.val f = none) :
    ((handleSubmit ops env acct f).submitStatus = SubmitStatus.error →
      ∃ e, (handleSubmit ops env acct f).loggedError = some e
        ∧ (handleSubmit ops env acct f).errorMessage = submitErrorMessage e
        ∧ (handleSubmit ops env acct f).errorMessage ≠ "")
    ∧ (∀ e, env.tokenResult = Except.error e →
        (handleSubmit ops env acct f).calls = [RemoteCall.acquireToken]
        ∧ (handleSubmit ops env acct f).submitStatus = SubmitStatus.error
        ∧ (handleSubmit ops env acct f).errorMessage = submitErrorMessage e)
    ∧ (∀ e, env.tokenResult = Except.ok () → env.mailboxResult = Except.error e →
        (handleSubmit ops env acct f).calls = baseCalls
        ∧ (handleSubmit ops env acct f).submitStatus = SubmitStatus.error
        ∧ (handleSubmit ops env acct f).errorMessage = submitErrorMessage e)
    ∧ (∀ e, env.tokenResult = Except.ok () → env.mailboxResult = Except.ok () →
        f.blockCalendar = true → env.calendarBlockResult = Except.error e →
        (handleSubmit ops env acct f).calls = baseCalls ++ [RemoteCall.postCalendarBlock]
        ∧ (handleSubmit ops env acct f).submitStatus = SubmitStatus.error
        ∧ (handleSubmit ops env acct f).errorMessage = submitErrorMessage e)
    ∧ (∀ e, env.tokenResult = Except.ok () → env.mailboxResult = Except.ok () →
        (if f.blockCalendar = true then env.calendarBlockResult else Except.ok ())
          = Except.ok () →
        f.declineNewInvites = true → env.declineRuleResult = Except.error e →
        (handleSubmit ops env acct f).calls = callsAfterBlock f ++ [RemoteCall.postDeclineRule]
        ∧ (handleSubmit ops env acct f).submitStatus = SubmitStatus.error
        ∧ (handleSubmit ops env acct f).errorMessage = submitErrorMessage e)
    ∧ (∀ e, env.tokenResult = Except.ok () → env.mailboxResult = Except.ok () →
        (if f.blockCalendar = true then env.calendarBlockResult else Except.ok ())
          = Except.ok () →
        (if f.declineNewInvites = true then env.declineRuleResult else Except.ok ())
          = Except.ok () →
        f.declineMeetings = true → env.calendarViewResult = Except.error e →
        (handleSubmit ops env acct f).calls
          = callsAfterDeclineRule f ++ [RemoteCall.getCalendarView]
        ∧ (handleSubmit ops env acct f).submitStatus = SubmitStatus.error
        ∧ (handleSubmit ops env acct f).errorMessage = submitErrorMessage e)
    ∧ (∀ e events, env.tokenResult = Except.ok () → env.mailboxResult = Except.ok () →
        (if f.blockCalendar = true then env.calendarBlockResult else Except.ok ())
          = Except.ok () →
        (if f.declineNewInvites = true then env.declineRuleResult else Except.ok ())
          = Except.ok () →
        f.declineMeetings = true → env.calendarViewResult = Except.ok events →
        (declineEvents env events).2 = some e →
        (handleSubmit ops env acct f).calls
          = callsAfterDeclineRule f ++ [RemoteCall.getCalendarView]
            ++ (declineEvents env events).1
        ∧ (∀ c ∈ (declineEvents env events).1, ∃ i, c = RemoteCall.postDeclineEvent i)
        ∧ (handleSubmit ops env acct f).submitStatus = SubmitStatus.error
        ∧ (handleSubmit ops env acct f).errorMessage = submitErrorMessage e)
    ∧ (∀ e u, env.tokenResult = Except.ok () → env.mailboxResult = Except.ok () →
        (if f.blockCalendar = true then env.calendarBlockResult else Except.ok ())
          = Except.ok () →
        (if f.declineNewInvites = true then env.declineRuleResult else Except.ok ())
          = Except.ok () →
        (f.declineMeetings = false
          ∨ (f.declineMeetings = true ∧ ∃ events,
              env.calendarViewResult = Except.ok events
              ∧ (declineEvents env events).2 = none)) →
        (if f.enableForwarding = true then f.selectedUser else none) = some u →
        env.forwardingRuleResult = Except.error e →
        (handleSubmit ops env acct f).calls
          = callsAfterMeetings env f ++ [RemoteCall.postForwardingRule]
        ∧ (handleSubmit ops env acct f).submitStatus = SubmitStatus.error
        ∧ (handleSubmit ops env acct f).errorMessage = submitErrorMessage e)
    ∧ (∀ e, env.tokenResult = Except.ok () → env.mailboxResult = Except.ok () →
        (if f.blockCalendar = true then env.calendarBlockResult else Except.ok ())
          = Except.ok () →
        (if f.declineNewInvites = true then env.declineRuleResult else Except.ok ())
          = Except.ok () →
        (f.declineMeetings = false
          ∨ (f.declineMeetings = true ∧ ∃ events,
              env.calendarViewResult = Except.ok events
              ∧ (declineEvents env events).2 = none)) →
        ((if f.enableForwarding = true then f.selectedUser else none) = none
          ∨ (∃ u rid, (if f.enableForwarding = true then f.selectedUser else none) = some u
              ∧ env.forwardingRuleResult = Except.ok rid)) →
        env.webhookResult = Except.error e →
        (handleSubmit ops env acct f).calls
          = callsBeforeWebhook env f ++ [RemoteCall.postWebhook]
        ∧ (handleSubmit ops env acct f).submitStatus = SubmitStatus.error
        ∧ (handleSubmit ops env acct f).errorMessage = submitErrorMessage e)
    ∧ (∀ resp, env.tokenResult = Except.ok () → env.mailboxResult = Except.ok () →
        (if f.blockCalendar = true then env.calendarBlockResult else Except.ok ())
          = Except.ok () →
        (if f.declineNewInvites = true then env.declineRuleResult else Except.ok ())
          = Except.ok () →
        (f.declineMeetings = false
          ∨ (f.declineMeetings = true ∧ ∃ events,
              env.calendarViewResult = Except.ok events
              ∧ (declineEvents env events).2 = none)) →
        ((if f.enableForwarding = true then f.selectedUser else none) = none
          ∨ (∃ u rid, (if f.enableForwarding = true then f.selectedUser else none) = some u
              ∧ env.forwardingRuleResult = Except.ok rid)) →
        env.webhookResult = Except.ok resp → resp.ok = false →
        (handleSubmit ops env acct f).calls
          = callsBeforeWebhook env f ++ [RemoteCall.postWebhook]
        ∧ (handleSubmit ops env acct f).submitStatus = SubmitStatus.error
        ∧ (handleSubmit ops env acct f).errorMessage
          = submitErrorMessage
              (some ("Power Automate webhook failed: " ++ toString resp.status))) := by
  refine ⟨?_, ?_, ?_, ?_, ?_, ?_, ?_, ?_, ?_, ?_⟩
  · intro herr
    rcases submit_outcome_cases ops env acct f hv with ⟨hs, _⟩ | ⟨e, _, hl, hm⟩
    · rw [herr] at hs
      exact absurd hs (by decide)
    · exact ⟨e, hl, hm, by rw [hm]; exact submitErrorMessage_ne_empty e⟩
  · intro e he
    refine ⟨?_, ?_, ?_⟩ <;> simp [handleSubmit, hv, he, submitFailure]
  · intro e hok he
    refine ⟨?_, ?_, ?_⟩ <;> simp [handleSubmit, hv, hok, he, submitFailure, baseCalls]
  · intro e htok hmail hb he
    refine ⟨?_, ?_, ?_⟩ <;>
      simp [handleSubmit, hv, htok, hmail, hb, he, submitFailure, baseCalls]
  · intro e htok hmail hblock hd he
    refine ⟨?_, ?_, ?_⟩ <;>
      simp [handleSubmit, hv, htok, hmail, hblock, hd, he, submitFailure,
        callsAfterBlock, baseCalls]
  · intro e htok hmail hblock hdecl hm he
    refine ⟨?_, ?_, ?_⟩ <;>
      simp [handleSubmit, hv, htok, hmail, hblock, hdecl, hm, he, submitFailure,
        callsAfterDeclineRule, callsAfterBlock, baseCalls]
  · intro e events htok hmail hblock hdecl hm hview hloop
    refine ⟨?_, declineEvents_calls_shape env events, ?_, ?_⟩ <;>
      simp [handleSubmit, hv, htok, hmail, hblock, hdecl, hm, hview, hloop, submitFailure,
        callsAfterDeclineRule, callsAfterBlock, baseCalls]
  · intro e u htok hmail hblock hdecl hmeets hsel he
    rcases hmeets with hmf | ⟨hmt, events, hview, hnone⟩
    · refine ⟨?_, ?_, ?_⟩ <;>
        simp [handleSubmit, hv, htok, hmail, hblock, hdecl, hmf, hsel, he, submitFailure,
          callsAfterMeetings, callsAfterDeclineRule, callsAfterBlock, baseCalls]
    · refine ⟨?_, ?_, ?_⟩ <;>
        simp [handleSubmit, hv, htok, hmail, hblock, hdecl, hmt, hview, hnone, hsel, he,
          submitFailure, callsAfterMeetings, callsAfterDeclineRule, callsAfterBlock, baseCalls]
  · intro e htok hmail hblock hdecl hmeets hfwd hwh
    rcases hmeets with hmf | ⟨hmt, events, hview, hnone⟩ <;>
      rcases hfwd with hno | ⟨u, rid, hsome, hok⟩ <;>
      refine ⟨?_, ?_, ?_⟩ <;>
        simp [handleSubmit, hv, htok, hmail, hblock, hdecl, hwh, finishWebhook, submitFailure,
          callsBeforeWebhook, callsAfterMeetings, callsAfterDeclineRule, callsAfterBlock,
          baseCalls, *]
  · intro resp htok hmail hblock hdecl hmeets hfwd hwh hnok
    rcases hmeets with hmf | ⟨hmt, events, hview, hnone⟩ <;>
      rcases hfwd with hno | ⟨u, rid, hsome, hok⟩ <;>
      refine ⟨?_, ?_, ?_⟩ <;>
        simp [handleSubmit, hv, htok, hmail, hblock, hdecl, hwh, hnok, finishWebhook,
          submitFailure, callsBeforeWebhook, callsAfterMeetings, callsAfterDeclineRule,
          callsAfterBlock, baseCalls, *]

/-- Witness for the amended C3 at two concrete failures: the mailbox patch
throwing `Error("boom")` stops the pipeline after the first two calls with
the cause-bearing message; and a non-ok 500 webhook response ends the full
plain pipeline at the webhook call with the status-bearing message. -/
theorem submit_remote_failure_aborts_witness :
    ((handleSubmit demoOps demoEnvMailboxBoom demoAcct demoFormPlain).calls = baseCalls
      ∧ (handleSubmit demoOps demoEnvMailboxBoom demoAcct demoFormPlain).submitStatus
        = SubmitStatus.error
      ∧ (handleSubmit demoOps demoEnvMailboxBoom demoAcct demoFormPlain).errorMessage
        = submitErrorMessage (some "boom"))
    ∧ ((handleSubmit demoOps demoEnvWebhook500 demoAcct demoFormPlain).calls
        = callsBeforeWebhook demoEnvWebhook500 demoFormPlain ++ [RemoteCall.postWebhook]
      ∧ (handleSubmit demoOps demoEnvWebhook500 demoAcct demoFormPlain).submitStatus
        = SubmitStatus.error
      ∧ (handleSubmit demoOps demoEnvWebhook500 demoAcct demoFormPlain).errorMessage
        = submitErrorMessage
            (some ("Power Automate webhook failed: "
              ++ toString ({ ok := false, status := 500 } : WebhookResponse).status))) :=
  ⟨(submit_remote_failure_aborts demoOps demoEnvMailboxBoom demoAcct demoFormPlain
      (by decide)).2.2.1 (some "boom") rfl rfl,
   (submit_remote_failure_aborts demoOps demoEnvWebhook500 demoAcct demoFormPlain
      (by decide)).2.2.2.2.2.2.2.2.2 { ok := false, status := 500 } rfl rfl rfl rfl
      (Or.inl rfl) (Or.inl rfl) rfl rfl⟩

/-- C8: for every form failing one of the local validation checks (missing
start or end time, start not strictly before end, blank internal or
external message after trimming, or forwarding enabled with no selected
user), `validateForm` fails with a non-empty error message, the submission
ends in the error status carrying that message, and no remote call of any
kind — token acquisition, Graph mutation or webhook — is attempted. -/
theorem validation_failure_no_remote_calls (ops : DateOps) (env : GraphEnv)
    (acct : AccountInfo) (f : OofFormState)
    (h : f.startTime = "" ∨ f.endTime = "" ∨ ops.val f.endTime ≤ ops.val f.startTime
      ∨ jsTrim f.internalMessage = "" ∨ jsTrim f.externalMessage = ""
      ∨ (f.enableForwarding = true ∧ f.selectedUser = none)) :
    ∃ msg, validateForm ops.val f = some msg ∧ msg ≠ ""
      ∧ (handleSubmit ops env acct f).calls = []
      ∧ (handleSubmit ops env acct f).submitStatus = SubmitStatus.error
      ∧ (handleSubmit ops env acct f).errorMessage = msg := by
  have hv : ∃ msg, validateForm ops.val f = some msg ∧ msg ≠ "" := by
    unfold validateForm
    by_cases h1 : f.startTime = "" ∨ f.endTime = ""
    · exact ⟨_, by rw [if_pos h1], by decide⟩
    · rw [if_neg h1]
      by_cases h2 : ops.val f.endTime ≤ ops.val f.startTime
      · exact ⟨_, by rw [if_pos h2], by decide⟩
      · rw [if_neg h2]
        by_cases h3 : jsTrim f.internalMessage = ""
        · exact ⟨_, by rw [if_pos h3], by decide⟩
        · rw [if_neg h3]
          by_cases h4 : jsTrim f.externalMessage = ""
          · exact ⟨_, by rw [if_pos h4], by decide⟩
          · rw [if_neg h4]
            by_cases h5 : f.enableForwarding = true ∧ f.selectedUser = none
            · exact ⟨_, by rw [if_pos h5], by decide⟩
            · tauto
  obtain ⟨msg, hm, hne⟩ := hv
  refine ⟨msg, hm, hne, ?_, ?_, ?_⟩ <;> simp [handleSubmit, hm]

/-- Witness for C8 at a concrete invalid form: the plain valid form with its
internal message blanked to spaces fails validation with the internal
message prompt and attempts no remote call. -/
theorem validation_failure_no_remote_calls_witness :
    ∃ msg, validateForm demoOps.val { demoFormPlain with internalMessage := "  " }
        = some msg
      ∧ msg ≠ ""
      ∧ (handleSubmit demoOps demoEnvOk demoAcct
          { demoFormPlain with internalMessage := "  " }).calls = []
      ∧ (handleSubmit demoOps demoEnvOk demoAcct
          { demoFormPlain with internalMessage := "  " }).submitStatus = SubmitStatus.error
      ∧ (handleSubmit demoOps demoEnvOk demoAcct
          { demoFormPlain with internalMessage := "  " }).errorMessage = msg :=
  validation_failure_no_remote_calls demoOps demoEnvOk demoAcct
    { demoFormPlain with internalMessage := "  " }
    (Or.inr (Or.inr (Or.inr (Or.inl (by decide)))))

theorem finishWebhook_success_shape (env : GraphEnv) (acct : AccountInfo) (f : OofFormState)
    (sdt edt : String) (calls : List RemoteCall) (patched : AutomaticRepliesSetting)
    (rule : Option ForwardingRulePayload) (ruleId : Option String)
    (hs : (finishWebhook env acct f sdt edt calls patched rule ruleId).submitStatus
      = SubmitStatus.success) :
    (finishWebhook env acct f sdt edt calls patched rule ruleId).postedForwardingRule = rule
    ∧ ∃ p, (finishWebhook env acct f sdt edt calls patched rule ruleId).postedWebhookPayload
        = some p
      ∧ p.ruleId = ruleId
      ∧ p.forwardToEmail = (match f.selectedUser with
          | some u =>
            if f.enableForwarding = true then
              some (if u.mail = "" then u.userPrincipalName else u.mail)
            else none
          | none => none)
      ∧ p.forwardToName = (match f.selectedUser with
          | some u => if f.enableForwarding = true then some u.displayName else none
          | none => none) := by
  revert hs
  simp only [finishWebhook]
  split
  · intro hs
    exact absurd hs (by simp [submitFailure])
  · split
    · intro _
      exact ⟨rfl, _, rfl, rfl, rfl, rfl⟩
    · intro hs
      exact absurd hs (by simp [submitFailure])

set_option maxHeartbeats 1000000 in
/-- C10: whenever the submission succeeds with forwarding enabled and a user
selected, the forwarding rule is created disabled (`isEnabled := false`, so
forwarding does not start at submission time) with the selected user as the
forward-to address (mail, falling back to the principal name), and the
identifier returned by the rule creation is included as `ruleId` in the
webhook payload; when forwarding is not enabled, `ruleId`, `forwardToEmail`
and `forwardToName` in that payload are all null. -/
theorem forwarding_rule_disabled_and_payload (ops : DateOps) (env : GraphEnv)
    (acct : AccountInfo) (f : OofFormState) (u : GraphUser)
    (hsucc : (handleSubmit ops env acct f).submitStatus = SubmitStatus.success) :
    (f.enableForwarding = true → f.selectedUser = some u →
      ∃ rid, env.forwardingRuleResult = Except.ok rid
        ∧ (∃ r, (handleSubmit ops env acct f).postedForwardingRule = some r
            ∧ r.isEnabled = false
            ∧ r.forwardTo = [{ name := u.displayName
                               address := if u.mail = "" then u.userPrincipalName
                                          else u.mail }]
            ∧ r.displayName = "OOO Forwarding Rule")
        ∧ ∃ p, (handleSubmit ops env acct f).postedWebhookPayload = some p
            ∧ p.ruleId = some rid
            ∧ p.forwardToEmail = some (if u.mail = "" then u.userPrincipalName else u.mail)
            ∧ p.forwardToName = some u.displayName)
    ∧ (f.enableForwarding = false →
      ∃ p, (handleSubmit ops env acct f).postedWebhookPayload = some p
        ∧ p.ruleId = none ∧ p.forwardToEmail = none ∧ p.forwardToName = none) := by
  revert hsucc
  simp only [handleSubmit]
  split
  · intro hs
    exact absurd hs (by simp)
  · split
    · intro hs
      exact absurd hs (by simp [submitFailure])
    · split
      · intro hs
        exact absurd hs (by simp [submitFailure])
      · split
        · intro hs
          exact absurd hs (by simp [submitFailure])
        · split
          · intro hs
            exact absurd hs (by simp [submitFailure])
          · split
            · intro hs
              exact absurd hs (by simp [submitFailure])
            · split
              · rename_i xfw u' heqfw
                split
                · intro hs
                  exact absurd hs (by simp [submitFailure])
                · rename_i xfr rid heqok
                  intro hs
                  obtain ⟨hrule, p, hp, hpid, hpe, hpn⟩ :=
                    finishWebhook_success_shape _ _ _ _ _ _ _ _ _ hs
                  constructor
                  · intro hf hsel
                    rw [if_pos hf] at heqfw
                    rw [hsel] at heqfw
                    obtain rfl : u' = u := by
                      injection heqfw with h
                      exact h.symm
                    refine ⟨rid, heqok, ⟨_, hrule, rfl, rfl, rfl⟩, p, hp, hpid, ?_, ?_⟩
                    · rw [hpe, hsel]
                      simp [hf]
                    · rw [hpn, hsel]
                      simp [hf]
                  · intro hf0
                    rw [hf0] at heqfw
                    simp at heqfw
              · rename_i xfw heqfw
                intro hs
                obtain ⟨hrule, p, hp, hpid, hpe, hpn⟩ :=
                  finishWebhook_success_shape _ _ _ _ _ _ _ _ _ hs
                constructor
                · intro hf hsel
                  rw [if_pos hf, hsel] at heqfw
                  exact absurd heqfw (by simp)
                · intro hf0
                  refine ⟨p, hp, hpid, ?_, ?_⟩
                  · rw [hpe]
                    cases f.selectedUser <;> simp [hf0]
                  · rw [hpn]
                    cases f.selectedUser <;> simp [hf0]

/-- Witness for C10 at the all-success environment with forwarding enabled
and `uA` selected: the created rule is disabled and the webhook payload
carries the created rule's identifier and `uA`'s address and name. -/
theorem forwarding_rule_disabled_and_payload_witness :
    ∃ rid, demoEnvOk.forwardingRuleResult = Except.ok rid
      ∧ (∃ r, (handleSubmit demoOps demoEnvOk demoAcct demoFormFwd).postedForwardingRule
            = some r
          ∧ r.isEnabled = false
          ∧ r.forwardTo = [{ name := uA.displayName
                             address := if uA.mail = "" then uA.userPrincipalName
                                        else uA.mail }]
          ∧ r.displayName = "OOO Forwarding Rule")
      ∧ ∃ p, (handleSubmit demoOps demoEnvOk demoAcct demoFormFwd).postedWebhookPayload
            = some p
          ∧ p.ruleId = some rid
          ∧ p.forwardToEmail = some (if uA.mail = "" then uA.userPrincipalName else uA.mail)
          ∧ p.forwardToName = some uA.displayName :=
  (forwarding_rule_disabled_and_payload demoOps demoEnvOk demoAcct demoFormFwd uA
    (by decide)).1 rfl rfl
